import Mathlib

/-!
# Verification of the MserialPort core

Shallow embedding of the MserialPort repository (an Android JNI serial-port
library built around the CppLinuxSerial `SerialPort` class) together with
proofs of the behavioural properties stated in its specification.

Sources embedded:
* `app/src/main/cpp/includes/SerialPort.hpp` — the header defines
  `getBaudrate` inline (lines 27-63) and declares the `SerialPort` class;
  the implementation file `SerialPort.cpp` is not part of the repository
  sources, so the behaviour of the declared members is modelled from the
  specification (each such definition is marked `Modelled from the spec:`).
* `app/src/main/cpp/mserialport.cpp` — the JNI bridge holding the global
  callback map and the `openSerialPort` / `closeSerialPort` / `sendMessage`
  entry points.  The `SerialPortManager` and `SPReadWriteWorker` classes it
  calls into are declared in headers that are not part of the sources; they
  are likewise modelled from the specification.
-/

set_option autoImplicit false

namespace MserialPort

/-! ## Baud-rate table

Numeric values of the `Bxxx` speed constants of the Linux/Android termios ABI
(`asm-generic/termbits.h`), which is the platform the repository targets.
-/

def B0 : Nat := 0
def B50 : Nat := 1
def B75 : Nat := 2
def B110 : Nat := 3
def B134 : Nat := 4
def B150 : Nat := 5
def B200 : Nat := 6
def B300 : Nat := 7
def B600 : Nat := 8
def B1200 : Nat := 9
def B1800 : Nat := 10
def B2400 : Nat := 11
def B4800 : Nat := 12
def B9600 : Nat := 13
def B19200 : Nat := 14
def B38400 : Nat := 15
def B57600 : Nat := 4097
def B115200 : Nat := 4098
def B230400 : Nat := 4099
def B460800 : Nat := 4100
def B500000 : Nat := 4101
def B576000 : Nat := 4102
def B921600 : Nat := 4103
def B1000000 : Nat := 4104
def B1152000 : Nat := 4105
def B1500000 : Nat := 4106
def B2000000 : Nat := 4107
def B2500000 : Nat := 4108
def B3000000 : Nat := 4109
def B3500000 : Nat := 4110
def B4000000 : Nat := 4111

/-- The value `(speed_t)(-1)` returned by the `default:` branch of
`getBaudrate`: `speed_t` is an unsigned 32-bit integer, so `-1` wraps to
`2^32 - 1`.  This is the "unsupported" sentinel. -/
def unsupportedSentinel : Nat := 4294967295

/-- Shallow embedding of `getBaudrate` (`SerialPort.hpp` lines 27-63): a
`switch` on the numeric rate returning the platform `speed_t` constant, with
`(speed_t)(-1)` for the `default:` case. -/
def getBaudrate (baudrate : Int) : Nat :=
  if baudrate = 0 then B0
  else if baudrate = 50 then B50
  else if baudrate = 75 then B75
  else if baudrate = 110 then B110
  else if baudrate = 134 then B134
  else if baudrate = 150 then B150
  else if baudrate = 200 then B200
  else if baudrate = 300 then B300
  else if baudrate = 600 then B600
  else if baudrate = 1200 then B1200
  else if baudrate = 1800 then B1800
  else if baudrate = 2400 then B2400
  else if baudrate = 4800 then B4800
  else if baudrate = 9600 then B9600
  else if baudrate = 19200 then B19200
  else if baudrate = 38400 then B38400
  else if baudrate = 57600 then B57600
  else if baudrate = 115200 then B115200
  else if baudrate = 230400 then B230400
  else if baudrate = 460800 then B460800
  else if baudrate = 500000 then B500000
  else if baudrate = 576000 then B576000
  else if baudrate = 921600 then B921600
  else if baudrate = 1000000 then B1000000
  else if baudrate = 1152000 then B1152000
  else if baudrate = 1500000 then B1500000
  else if baudrate = 2000000 then B2000000
  else if baudrate = 2500000 then B2500000
  else if baudrate = 3000000 then B3000000
  else if baudrate = 3500000 then B3500000
  else if baudrate = 4000000 then B4000000
  else unsupportedSentinel

/-- The enumerated set of supported rates: exactly the `case` labels of the
`switch` in `getBaudrate`. -/
def supportedBaudRates : List Int :=
  [0, 50, 75, 110, 134, 150, 200, 300, 600, 1200, 1800, 2400, 4800, 9600,
   19200, 38400, 57600, 115200, 230400, 460800, 500000, 576000, 921600,
   1000000, 1152000, 1500000, 2000000, 2500000, 3000000, 3500000, 4000000]

/-- C1: on every rate in the enumerated supported set, `getBaudrate` returns
the platform's symbolic constant and is injective (the listed outputs are
pairwise distinct); every integer outside the set yields the unsupported
sentinel `(speed_t)(-1)`. -/
theorem getBaudrate_injective_and_fails_closed :
    (supportedBaudRates.map getBaudrate).Nodup ∧
      ∀ r : Int, r ∉ supportedBaudRates → getBaudrate r = unsupportedSentinel := by
  constructor
  · decide
  · intro r hr
    simp only [supportedBaudRates, List.mem_cons, List.not_mem_nil, or_false,
      not_or] at hr
    obtain ⟨h0, h1, h2, h3, h4, h5, h6, h7, h8, h9, h10, h11, h12, h13, h14,
      h15, h16, h17, h18, h19, h20, h21, h22, h23, h24, h25, h26, h27, h28,
      h29, h30⟩ := hr
    simp [getBaudrate, h0, h1, h2, h3, h4, h5, h6, h7, h8, h9, h10, h11, h12,
      h13, h14, h15, h16, h17, h18, h19, h20, h21, h22, h23, h24, h25, h26,
      h27, h28, h29, h30]

/-- Witness for C1 at the concrete unsupported rate 31416. -/
theorem getBaudrate_fails_closed_witness :
    (31416 : Int) ∉ supportedBaudRates ∧ getBaudrate 31416 = unsupportedSentinel :=
  ⟨by decide, getBaudrate_injective_and_fails_closed.2 31416 (by decide)⟩

/-! ## Read-timeout policy (`SetTimeout` / VMIN-VTIME semantics) -/

/-- Modelled from the spec: the implementation of `SetTimeout` and of the
terminal-configuration procedure is in `SerialPort.cpp`, which is not in the
repository sources; the header (`SerialPort.hpp` lines 94-100) documents that
`SetTimeout` manipulates the termios VMIN and VTIME fields, with the timeout
rounded to the nearest 100 ms and limited to 25500 ms.  Per spec §4.1/§8:
`-1` maps to blocking mode (VMIN = 1, VTIME = 0), `0` to immediate return
(VMIN = 0, VTIME = 0), and `t > 0` to a bounded wait (VMIN = 0, VTIME = the
timeout in deciseconds, rounded to nearest, capped at the `cc_t` maximum
255). -/
def timeoutToVminVtime (timeout_ms : Int) : Int × Int :=
  if timeout_ms = -1 then (1, 0)
  else if timeout_ms = 0 then (0, 0)
  else (0, min 255 (max 0 ((timeout_ms + 50) / 100)))

/-- The three read behaviours distinguished by the spec. -/
inductive ReadPolicy
  | blockUntilData : ReadPolicy
  | immediate : ReadPolicy
  | boundedWaitMs : Int → ReadPolicy
deriving DecidableEq

/-- Modelled from the spec: POSIX non-canonical read semantics of a
(VMIN, VTIME) pair — VMIN ≥ 1 with VTIME = 0 blocks until at least one byte
arrives, VMIN = 0 with VTIME = 0 returns immediately with whatever is
buffered, and VMIN = 0 with VTIME = v waits up to `100 * v` milliseconds. -/
def posixReadPolicy (cfg : Int × Int) : ReadPolicy :=
  if 1 ≤ cfg.1 ∧ cfg.2 = 0 then ReadPolicy.blockUntilData
  else if cfg.1 = 0 ∧ cfg.2 = 0 then ReadPolicy.immediate
  else ReadPolicy.boundedWaitMs (100 * cfg.2)

/-- The effective wait (in ms) that a positive timeout produces: 100 ms per
VTIME unit. -/
def effectiveWaitMs (timeout_ms : Int) : Int :=
  100 * (timeoutToVminVtime timeout_ms).2

/-- `t` rounded to the nearest multiple of 100. -/
def round100 (t : Int) : Int := 100 * ((t + 50) / 100)

/-- Clamp to the interval [0, 25500] ms (25500 = 255 VTIME units, the `cc_t`
ceiling). -/
def clampTimeout (x : Int) : Int := min 25500 (max 0 x)

/-- C2: a `-1` timeout makes `Read` block until data arrives, a `0` timeout
makes it return immediately, and for every `t > 0` the effective wait equals
`t` rounded to the nearest 100 ms and clamped to [0, 25500] ms. -/
theorem timeout_policy :
    posixReadPolicy (timeoutToVminVtime (-1)) = ReadPolicy.blockUntilData ∧
    posixReadPolicy (timeoutToVminVtime 0) = ReadPolicy.immediate ∧
    ∀ t : Int, 0 < t → effectiveWaitMs t = clampTimeout (round100 t) := by
  refine ⟨by simp [timeoutToVminVtime, posixReadPolicy],
          by simp [timeoutToVminVtime, posixReadPolicy], ?_⟩
  intro t ht
  have hne1 : t ≠ -1 := by omega
  have hne0 : t ≠ 0 := by omega
  have hq : 0 ≤ (t + 50) / 100 := Int.ediv_nonneg (by omega) (by omega)
  simp only [effectiveWaitMs, timeoutToVminVtime, if_neg hne1, if_neg hne0,
    clampTimeout, round100]
  omega

/-- Witness for C2 at the concrete timeout 26000 ms (clamps to 25500). -/
theorem timeout_policy_witness :
    (0 : Int) < 26000 ∧ effectiveWaitMs 26000 = clampTimeout (round100 26000) :=
  ⟨by decide, timeout_policy.2.2 26000 (by decide)⟩

/-! ## The SerialPort object

`SerialPort.hpp` declares the class (fields `state_`, `device_`, `fileDesc_`,
`custom_baudRate`, `echo_`, `timeout_ms_`, `readBufferSize_B_`); the member
implementations live in the missing `SerialPort.cpp` and are modelled from
the spec.  OS-level side effects are made observable as an explicit trace of
`IOAction`s returned alongside each result: a setter with an empty trace has
provably no I/O side effect.
-/

/-- The lifecycle states of `SerialPort.hpp` lines 64-67. -/
inductive State
  | CLOSED : State
  | OPEN : State
deriving DecidableEq

/-- Error taxonomy of spec §7 (the part the Port-level claims need). -/
inductive SerialError
  | notOpen : SerialError
  | openFailed : SerialError
  | unsupportedBaudRate : SerialError
  | configFailed : SerialError
deriving DecidableEq

/-- Observable OS/descriptor actions. -/
inductive IOAction
  | osOpen : String → IOAction
  | osClose : Nat → IOAction
  | osWrite : Nat → String → IOAction
  | osRead : Nat → IOAction
  | osConfigure : Nat → IOAction
deriving DecidableEq

/-- The `SerialPort` object state, mirroring the private fields declared in
`SerialPort.hpp` lines 134-165.  The descriptor is `some fd` only while the
port is open. -/
structure SerialPort where
  state_ : State
  device_ : String
  custom_baudRate : Int
  timeout_ms_ : Int
  echo_ : Bool
  fileDesc_ : Option Nat
  readBufferSize_B_ : Nat
deriving DecidableEq

/-- Modelled from the spec: `SerialPort.cpp` is not in the sources; per spec
§4.1 `SetDevice` is a pure setter with no I/O side effect, storing the device
path.  (The header comment additionally says the method may be called in any
state; the spec restricts it to CLOSED.) -/
def SetDevice (p : SerialPort) (device : String) : SerialPort × List IOAction :=
  ({ p with device_ := device }, [])

/-- Modelled from the spec: pure setter storing the numeric baud rate. -/
def SetBaudRate (p : SerialPort) (baudRate : Int) : SerialPort × List IOAction :=
  ({ p with custom_baudRate := baudRate }, [])

/-- Modelled from the spec: pure setter storing the timeout; the VMIN/VTIME
translation (`timeoutToVminVtime`) is applied only by the terminal
configuration procedure during `Open()`. -/
def SetTimeout (p : SerialPort) (timeout_ms : Int) : SerialPort × List IOAction :=
  ({ p with timeout_ms_ := timeout_ms }, [])

/-- Modelled from the spec: pure setter storing the echo flag. -/
def SetEcho (p : SerialPort) (value : Bool) : SerialPort × List IOAction :=
  ({ p with echo_ := value }, [])

/-- Modelled from the spec: `Write` requires `state_ == OPEN` and fails with
`NotOpenError` otherwise (spec §4.1, header line 116); on success it issues
one OS write of the bytes. -/
def Write (p : SerialPort) (data : String) :
    Except SerialError Unit × List IOAction :=
  if p.state_ = State.OPEN then
    (Except.ok (),
     match p.fileDesc_ with
     | some fd => [IOAction.osWrite fd data]
     | none => [])
  else (Except.error SerialError.notOpen, [])

/-- Modelled from the spec: `Read` performs one read attempt governed by the
configured timeout and requires `state_ == OPEN`, failing with `NotOpenError`
otherwise.  `incoming` abstracts what the OS delivers within the wait:
`none` means the timeout expired with zero bytes, which the spec makes a
normal empty result, not an error. -/
def Read (p : SerialPort) (incoming : Option String) :
    Except SerialError String × List IOAction :=
  if p.state_ = State.OPEN then
    (Except.ok (match incoming with | some s => s | none => ""),
     match p.fileDesc_ with
     | some fd => [IOAction.osRead fd]
     | none => [])
  else (Except.error SerialError.notOpen, [])

/-- Modelled from the spec: `Close()` — if OPEN, release the descriptor and
set state to CLOSED; a no-op if already CLOSED (spec §4.1). -/
def Close (p : SerialPort) : SerialPort × List IOAction :=
  if p.state_ = State.OPEN then
    ({ p with state_ := State.CLOSED, fileDesc_ := none },
     match p.fileDesc_ with
     | some fd => [IOAction.osClose fd]
     | none => [])
  else (p, [])

/-- C3: while CLOSED, each configuration setter updates exactly its own
stored field, preserves every other field (in particular the lifecycle state
and the descriptor), and performs no OS I/O (empty action trace). -/
theorem setters_pure_and_frame (p : SerialPort) (_hclosed : p.state_ = State.CLOSED)
    (d : String) (b t : Int) (e : Bool) :
    ((SetDevice p d).1.device_ = d ∧ (SetDevice p d).1.state_ = p.state_ ∧
      (SetDevice p d).1.custom_baudRate = p.custom_baudRate ∧
      (SetDevice p d).1.timeout_ms_ = p.timeout_ms_ ∧
      (SetDevice p d).1.echo_ = p.echo_ ∧
      (SetDevice p d).1.fileDesc_ = p.fileDesc_ ∧ (SetDevice p d).2 = []) ∧
    ((SetBaudRate p b).1.custom_baudRate = b ∧ (SetBaudRate p b).1.state_ = p.state_ ∧
      (SetBaudRate p b).1.device_ = p.device_ ∧
      (SetBaudRate p b).1.timeout_ms_ = p.timeout_ms_ ∧
      (SetBaudRate p b).1.echo_ = p.echo_ ∧
      (SetBaudRate p b).1.fileDesc_ = p.fileDesc_ ∧ (SetBaudRate p b).2 = []) ∧
    ((SetTimeout p t).1.timeout_ms_ = t ∧ (SetTimeout p t).1.state_ = p.state_ ∧
      (SetTimeout p t).1.device_ = p.device_ ∧
      (SetTimeout p t).1.custom_baudRate = p.custom_baudRate ∧
      (SetTimeout p t).1.echo_ = p.echo_ ∧
      (SetTimeout p t).1.fileDesc_ = p.fileDesc_ ∧ (SetTimeout p t).2 = []) ∧
    ((SetEcho p e).1.echo_ = e ∧ (SetEcho p e).1.state_ = p.state_ ∧
      (SetEcho p e).1.device_ = p.device_ ∧
      (SetEcho p e).1.custom_baudRate = p.custom_baudRate ∧
      (SetEcho p e).1.timeout_ms_ = p.timeout_ms_ ∧
      (SetEcho p e).1.fileDesc_ = p.fileDesc_ ∧ (SetEcho p e).2 = []) := by
  simp [SetDevice, SetBaudRate, SetTimeout, SetEcho]

/-- A concrete closed port used by the Port-level witnesses. -/
def closedPort : SerialPort :=
  ⟨State.CLOSED, "/dev/ttyUSB0", 9600, -1, false, none, 255⟩

/-- A concrete open port used by the Port-level witnesses. -/
def openPort : SerialPort :=
  ⟨State.OPEN, "/dev/ttyUSB0", 9600, 0, false, some 3, 255⟩

/-- Witness for C3 at the concrete closed port. -/
theorem setters_pure_and_frame_witness :
    closedPort.state_ = State.CLOSED ∧
      (SetDevice closedPort "/dev/ttyS1").1.device_ = "/dev/ttyS1" ∧
      (SetTimeout closedPort 100).2 = [] :=
  ⟨by decide,
   ((setters_pure_and_frame closedPort (by decide) "/dev/ttyS1" 9600 100 false).1).1,
   (((setters_pure_and_frame closedPort (by decide) "/dev/ttyS1" 9600 100
        false).2).2).1.2.2.2.2.2.2⟩

/-- C4: on a port that is not OPEN, `Write` and `Read` fail with
`NotOpenError` and perform no I/O (empty action trace); on an OPEN port, a
read whose timeout expires with zero bytes is the normal empty result
`ok ""`, not an error. -/
theorem io_requires_open (p : SerialPort) (data : String) :
    (p.state_ ≠ State.OPEN →
       Write p data = (Except.error SerialError.notOpen, []) ∧
       ∀ incoming, Read p incoming = (Except.error SerialError.notOpen, [])) ∧
    (p.state_ = State.OPEN → (Read p none).1 = Except.ok "") := by
  constructor
  · intro h
    exact ⟨by simp [Write, h], fun incoming => by simp [Read, h]⟩
  · intro h
    simp [Read, h]

/-- Witness for C4: the closed port rejects `Write`, the open port's empty
timed-out read is `ok ""`. -/
theorem io_requires_open_witness :
    Write closedPort "ping" = (Except.error SerialError.notOpen, []) ∧
      (Read openPort none).1 = Except.ok "" :=
  ⟨((io_requires_open closedPort "ping").1 (by decide)).1,
   (io_requires_open openPort "ping").2 (by decide)⟩

/-- C5: `Close` on an OPEN port releases the descriptor and sets the state to
CLOSED; on a CLOSED port it is a no-op with no I/O; and a second `Close` is
always a no-op, so closing twice equals closing once. -/
theorem close_idempotent (p : SerialPort) :
    (p.state_ = State.OPEN →
       (Close p).1.state_ = State.CLOSED ∧ (Close p).1.fileDesc_ = none) ∧
    (p.state_ = State.CLOSED → Close p = (p, [])) ∧
    Close (Close p).1 = ((Close p).1, []) := by
  refine ⟨fun h => by simp [Close, h], fun h => by simp [Close, h], ?_⟩
  cases hs : p.state_ <;> simp [Close, hs]

/-- Witness for C5 at the concrete open port. -/
theorem close_idempotent_witness :
    (Close openPort).1.state_ = State.CLOSED ∧
      Close closedPort = (closedPort, []) :=
  ⟨((close_idempotent openPort).1 (by decide)).1,
   (close_idempotent closedPort).2.1 (by decide)⟩

/-! ## The JNI bridge and the manager (`mserialport.cpp`)

`mserialport.cpp` is in the sources.  It keeps a process-wide
`g_callback_map : path → global callback reference` and a
`SerialPortManager` registry of per-path workers.  `SerialPortManager` and
`SPReadWriteWorker` are declared in headers that are not in the sources, so
their operations are modelled from spec §4.2/§4.3; the JNI entry points
themselves are embedded from the `.cpp` file.  `std::unordered_map` is
modelled as an association list with overwrite-on-insert semantics;
callback global references are modelled as `Nat` ids.
-/

/-- First-match lookup in an association list keyed by device path. -/
def mapLookup {α : Type} (m : List (String × α)) (k : String) : Option α :=
  match m with
  | [] => none
  | (k2, v) :: rest => if k2 = k then some v else mapLookup rest k

/-- Remove every binding of a key. -/
def mapErase {α : Type} (m : List (String × α)) (k : String) :
    List (String × α) :=
  match m with
  | [] => []
  | (k2, v) :: rest =>
      if k2 = k then mapErase rest k else (k2, v) :: mapErase rest k

/-- Insert, overwriting any previous binding (the semantics of
`unordered_map::operator[] = v`). -/
def mapInsert {α : Type} (m : List (String × α)) (k : String) (v : α) :
    List (String × α) :=
  (k, v) :: mapErase m k

theorem mapLookup_insert_self {α : Type} (m : List (String × α)) (k : String)
    (v : α) : mapLookup (mapInsert m k v) k = some v := by
  simp [mapInsert, mapLookup]

theorem mapLookup_erase {α : Type} (m : List (String × α)) (k k2 : String) :
    mapLookup (mapErase m k) k2 = if k = k2 then none else mapLookup m k2 := by
  induction m with
  | nil => simp [mapErase, mapLookup]
  | cons hd tl ih =>
      obtain ⟨k3, v⟩ := hd
      by_cases h3 : k3 = k
      · subst h3
        by_cases h : k3 = k2
        · subst h
          simp [mapErase, mapLookup, ih]
        · simp [mapErase, mapLookup, h, ih]
      · by_cases h : k3 = k2
        · subst h
          have hk : ¬k = k3 := fun he => h3 he.symm
          simp [mapErase, mapLookup, h3, hk]
        · simp [mapErase, mapLookup, h3, h, ih]

theorem mapLookup_insert {α : Type} (m : List (String × α)) (k k2 : String)
    (v : α) :
    mapLookup (mapInsert m k v) k2 =
      if k = k2 then some v else mapLookup m k2 := by
  by_cases h : k = k2 <;>
    simp [mapInsert, mapLookup, h, mapLookup_erase]

/-- Modelled from the spec: `SPReadWriteWorker.h` is not in the sources; the
Worker is modelled as the record of its constructor arguments as passed at
`mserialport.cpp` lines 79-87 — device path, baud rate, the JavaVM handle
(`some ()` for `g_vm`, `none` for `nullptr`) and the sink back-reference (the
callback-map key it points at, `none` for `nullptr`) — plus its inbound
message queue (spec §4.2), initially empty. -/
structure Worker where
  path : String
  baudRate : Int
  vm : Option Unit
  sinkRef : Option String
  queue : List String
deriving DecidableEq

/-- Errors of the manager layer (spec §7). -/
inductive ManagerError
  | notFound : ManagerError
deriving DecidableEq

/-- The process-wide mutable state of `mserialport.cpp`: the manager's
path-to-worker registry (`mManager`) and the global callback map
(`g_callback_map`, line 11). -/
structure ManagerState where
  ports : List (String × Worker)
  callbackMap : List (String × Nat)
deriving DecidableEq

/-- Modelled from the spec: `SerialPortManager::sendMessage` — look up the
path, fail with NotFoundError if absent, otherwise enqueue each message onto
the Worker's inbound queue in the order given (spec §4.3). -/
def sendMessage (m : ManagerState) (path : String) (msgs : List String) :
    Except ManagerError ManagerState :=
  match mapLookup m.ports path with
  | none => Except.error ManagerError.notFound
  | some w =>
      Except.ok
        { m with ports := mapInsert m.ports path { w with queue := w.queue ++ msgs } }

/-- Modelled from the spec: `SerialPortManager::addSerialPort` registers the
worker under the path (spec §4.3); the duplicate-path policy is an open
question in the spec (§9), modelled here as replace. -/
def addSerialPort (m : ManagerState) (path : String) (w : Worker) :
    ManagerState :=
  { m with ports := mapInsert m.ports path w }

/-- Modelled from the spec: `SerialPortManager::removeSerialPort` removes the
path's worker, a no-op if absent (spec §4.3). -/
def removeSerialPort (m : ManagerState) (path : String) : ManagerState :=
  { m with ports := mapErase m.ports path }

/-- Modelled from the spec: the `START_READ` token enqueued at
`mserialport.cpp` line 82 is the reserved begin-reading control literal; line
12 of the same file defines the literal `start = "start"` and the spec names
the magic control token as the `"start"` string. -/
def START_READ : String := "start"

/-- Shallow embedding of the JNI string-array marshalling loop of
`sendMessage` (`mserialport.cpp` lines 22-29): the commands are appended one
by one, in array order, to the `msgs` vector. -/
def jniCollect (commands : List String) : List String :=
  commands.foldl (fun acc c => acc ++ [c]) []

theorem jniCollect_eq (commands : List String) : jniCollect commands = commands := by
  have h : ∀ acc : List String,
      commands.foldl (fun a c => a ++ [c]) acc = acc ++ commands := by
    induction commands with
    | nil => simp
    | cons hd tl ih => intro acc; simp [ih]
  simpa using h []

/-- Shallow embedding of
`Java_com_castle_serialport_SerialPortManager_sendMessage`
(`mserialport.cpp` lines 14-33): marshal the commands in order and hand them
to the manager. -/
def jniSendMessage (m : ManagerState) (path : String)
    (commands : List String) : Except ManagerError ManagerState :=
  sendMessage m path (jniCollect commands)

/-- Shallow embedding of
`Java_com_castle_serialport_SerialPortManager_openSerialPort`
(`mserialport.cpp` lines 67-90): with a non-null callback, store a global
reference to it in `g_callback_map`, register a worker built with the VM
handle and a pointer to that map entry, and enqueue the `START_READ` token;
with a null callback, register a worker built with null VM and null sink and
touch neither the callback map nor the queue. -/
def openSerialPort (m : ManagerState) (path : String) (baudRate : Int)
    (callback : Option Nat) : ManagerState :=
  match callback with
  | some cb =>
      let m1 : ManagerState :=
        { m with callbackMap := mapInsert m.callbackMap path cb }
      let m2 : ManagerState :=
        addSerialPort m1 path ⟨path, baudRate, some (), some path, []⟩
      match sendMessage m2 path [START_READ] with
      | Except.ok m3 => m3
      | Except.error _ => m2
  | none => addSerialPort m path ⟨path, baudRate, none, none, []⟩

/-- Shallow embedding of
`Java_com_castle_serialport_SerialPortManager_closeSerialPort`
(`mserialport.cpp` lines 35-46): remove the port from the manager, then
unconditionally erase the path's callback-map entry. -/
def closeSerialPort (m : ManagerState) (path : String) : ManagerState :=
  { removeSerialPort m path with callbackMap := mapErase m.callbackMap path }

/-- C6: opening with a non-null sink registers the worker (VM handle and sink
reference set) and immediately enqueues the begin-reading control token, so
the worker's inbound queue holds exactly the reserved `"start"` literal. -/
theorem open_with_sink_arms_read_loop (m : ManagerState) (path : String)
    (baudRate : Int) (cb : Nat) :
    mapLookup (openSerialPort m path baudRate (some cb)).ports path =
      some ⟨path, baudRate, some (), some path, [START_READ]⟩ ∧
    START_READ = "start" := by
  constructor
  · simp [openSerialPort, addSerialPort, sendMessage, mapLookup_insert_self]
  · rfl

/-- C9: opening with a null callback leaves the global callback map
untouched, builds the worker with null VM handle and null sink reference,
and enqueues nothing (empty inbound queue — the read loop is never armed). -/
theorem open_without_sink (m : ManagerState) (path : String) (baudRate : Int) :
    (openSerialPort m path baudRate none).callbackMap = m.callbackMap ∧
    mapLookup (openSerialPort m path baudRate none).ports path =
      some ⟨path, baudRate, none, none, []⟩ := by
  constructor
  · simp [openSerialPort, addSerialPort]
  · simp [openSerialPort, addSerialPort, mapLookup_insert_self]

/-- C7: when the path is registered, `sendMessage` succeeds and appends the
marshalled messages to the worker's inbound queue in the order given — the
i-th input message becomes queue entry `|old queue| + i`; when the path is
absent it fails with NotFoundError. -/
theorem sendMessage_order (m : ManagerState) (path : String)
    (commands : List String) :
    (∀ w, mapLookup m.ports path = some w →
       ∃ m2, jniSendMessage m path commands = Except.ok m2 ∧
         mapLookup m2.ports path = some { w with queue := w.queue ++ commands } ∧
         ∀ i : Nat,
           (w.queue ++ commands)[w.queue.length + i]? = commands[i]?) ∧
    (mapLookup m.ports path = none →
       jniSendMessage m path commands = Except.error ManagerError.notFound) := by
  constructor
  · intro w hw
    refine ⟨{ m with ports := mapInsert m.ports path { w with queue := w.queue ++ commands } }, ?_, ?_, ?_⟩
    · simp [jniSendMessage, jniCollect_eq, sendMessage, hw]
    · simp [mapLookup_insert_self]
    · intro i
      rw [List.getElem?_append_right (Nat.le_add_right _ _)]
      simp
  · intro hw
    simp [jniSendMessage, jniCollect_eq, sendMessage, hw]

/-- A concrete one-worker registry used by the C7 witness. -/
def demoWorker : Worker := ⟨"/dev/ttyS0", 115200, none, none, ["a"]⟩

/-- A concrete manager state used by the C7 witness. -/
def demoManager : ManagerState := ⟨[("/dev/ttyS0", demoWorker)], []⟩

/-- Witness for C7: on the concrete one-worker registry the messages land in
order behind the pending entry, and an unknown path yields NotFoundError. -/
theorem sendMessage_order_witness :
    (∃ m2, jniSendMessage demoManager "/dev/ttyS0" ["b", "c"] = Except.ok m2 ∧
       mapLookup m2.ports "/dev/ttyS0" =
         some { demoWorker with queue := demoWorker.queue ++ ["b", "c"] } ∧
       ∀ i : Nat,
         (demoWorker.queue ++ ["b", "c"])[demoWorker.queue.length + i]? =
           ["b", "c"][i]?) ∧
    jniSendMessage demoManager "/dev/null" ["b"] =
      Except.error ManagerError.notFound :=
  ⟨(sendMessage_order demoManager "/dev/ttyS0" ["b", "c"]).1 demoWorker (by rfl),
   (sendMessage_order demoManager "/dev/null" ["b"]).2 (by rfl)⟩

/-! ## Histories of JNI calls and the callback-map invariant -/

/-- One JNI entry-point invocation relevant to the callback map: an
`openSerialPort(path, baudRate, callback)` call (callback `none` = null) or a
`closeSerialPort(path)` call. -/
inductive JniEvent
  | openEv : String → Int → Option Nat → JniEvent
  | closeEv : String → JniEvent
deriving DecidableEq

/-- The process state right after `JNI_OnLoad`: empty registry, empty
callback map. -/
def initialManager : ManagerState := ⟨[], []⟩

/-- Run a finite sequence of JNI calls in order. -/
def runEvents (evs : List JniEvent) (m : ManagerState) : ManagerState :=
  match evs with
  | [] => m
  | JniEvent.openEv p b cb :: rest => runEvents rest (openSerialPort m p b cb)
  | JniEvent.closeEv p :: rest => runEvents rest (closeSerialPort m p)

/-- Does the event mention the given path? -/
def relevantTo (p : String) (e : JniEvent) : Bool :=
  match e with
  | JniEvent.openEv q _ _ => q == p
  | JniEvent.closeEv q => q == p

/-- The most recent event mentioning the path. -/
def lastRelevant (evs : List JniEvent) (p : String) : Option JniEvent :=
  (evs.filter (relevantTo p)).getLast?

/-- The presence condition asserted by the claim: the most recent
`openSerialPort` for the path supplied a non-null callback and no
`closeSerialPort` for the path has occurred since — i.e. the last event
mentioning the path is an open with a non-null callback. -/
def claimPresence (evs : List JniEvent) (p : String) : Bool :=
  match lastRelevant evs p with
  | some (JniEvent.openEv _ _ (some _)) => true
  | _ => false

/-- The concrete two-call history refuting the claimed invariant: open with a
callback, then re-open the same path with a null callback. -/
def c10Events : List JniEvent :=
  [JniEvent.openEv "a" 9600 (some 1), JniEvent.openEv "a" 9600 none]

/-- The else-branch of `openSerialPort` (`mserialport.cpp` lines 83-88) does
not touch `g_callback_map`, so after `[open "a" cb, open "a" null]` the map
still holds the key `"a"` although the most recent open supplied a null
callback: the claimed iff fails on this history. -/
theorem callback_map_claim_counterexample :
    ¬((mapLookup (runEvents c10Events initialManager).callbackMap "a").isSome
        = claimPresence c10Events "a") := by
  decide

/-- The key after an open with a non-null callback holds the new global
reference, overwriting any prior entry (`mserialport.cpp` line 78). -/
theorem openSerialPort_some_callbackMap (m : ManagerState) (p : String)
    (b : Int) (cb : Nat) :
    (openSerialPort m p b (some cb)).callbackMap = mapInsert m.callbackMap p cb := by
  simp [openSerialPort, addSerialPort, sendMessage, mapLookup_insert_self]

/-- An open with a null callback leaves the callback map untouched. -/
theorem openSerialPort_none_callbackMap (m : ManagerState) (p : String)
    (b : Int) :
    (openSerialPort m p b none).callbackMap = m.callbackMap := rfl

/-- `closeSerialPort` unconditionally erases the path's callback entry
(`mserialport.cpp` line 44). -/
theorem closeSerialPort_callbackMap (m : ManagerState) (p : String) :
    (closeSerialPort m p).callbackMap = mapErase m.callbackMap p := rfl

/-- One step of the corrected presence condition: an open with a non-null
callback for the path makes it present, a close for the path makes it
absent, and every other event preserves presence. -/
def presentStep (p : String) (b : Bool) (e : JniEvent) : Bool :=
  match e with
  | JniEvent.openEv q _ (some _) => if q = p then true else b
  | JniEvent.openEv _ _ none => b
  | JniEvent.closeEv q => if q = p then false else b

/-- The corrected presence condition over a whole history: the path is
present iff some `openSerialPort` with a non-null callback for it occurred
and no `closeSerialPort` for it has occurred since. -/
def amendedPresence (evs : List JniEvent) (p : String) : Bool :=
  evs.foldl (presentStep p) false

theorem runEvents_callback_presence (evs : List JniEvent) (m : ManagerState)
    (p : String) :
    (mapLookup (runEvents evs m).callbackMap p).isSome =
      evs.foldl (presentStep p) (mapLookup m.callbackMap p).isSome := by
  induction evs generalizing m with
  | nil => rfl
  | cons e rest ih =>
      cases e with
      | openEv q b cb =>
          cases cb with
          | some c =>
              show (mapLookup (runEvents rest (openSerialPort m q b (some c))).callbackMap p).isSome = _
              rw [ih, List.foldl_cons]
              congr 1
              rw [openSerialPort_some_callbackMap, mapLookup_insert]
              by_cases h : q = p <;> simp [presentStep, h]
          | none =>
              show (mapLookup (runEvents rest (openSerialPort m q b none)).callbackMap p).isSome = _
              rw [ih, openSerialPort_none_callbackMap]
              rfl
      | closeEv q =>
          show (mapLookup (runEvents rest (closeSerialPort m q)).callbackMap p).isSome = _
          rw [ih, List.foldl_cons]
          congr 1
          rw [closeSerialPort_callbackMap, mapLookup_erase]
          by_cases h : q = p <;> simp [presentStep, h]

/-- C10 (amended): after any finite sequence of `openSerialPort` and
`closeSerialPort` calls, a path key is present in the callback map iff some
`openSerialPort` for that path supplied a non-null callback and no
`closeSerialPort` for that path has occurred since (an intervening re-open
with a null callback does NOT clear the stale entry); `closeSerialPort`
always erases the path's entry, and reopening with a non-null callback
overwrites the prior entry. -/
theorem callback_map_invariant :
    (∀ (evs : List JniEvent) (p : String),
       (mapLookup (runEvents evs initialManager).callbackMap p).isSome =
         amendedPresence evs p) ∧
    (∀ (m : ManagerState) (p : String),
       (closeSerialPort m p).callbackMap = mapErase m.callbackMap p) ∧
    (∀ (m : ManagerState) (p : String) (b : Int) (cb : Nat),
       (openSerialPort m p b (some cb)).callbackMap = mapInsert m.callbackMap p cb) := by
  refine ⟨fun evs p => ?_, fun m p => rfl,
    fun m p b cb => openSerialPort_some_callbackMap m p b cb⟩
  rw [amendedPresence, runEvents_callback_presence]
  rfl

end MserialPort
